import Mathlib

/-!
Verification of scripts/generate_post.py (ProductFetcher and the batch
post generator) against its specification.

The embedding models the two functions of the script:

* get_product_details(url, associate_tag): ASIN extraction by the regex
  /dp/([A-Z0-9]{10}), a 3-attempt retry loop around an HTTP transport,
  CAPTCHA-marker detection on the response text, BeautifulSoup-style
  extraction of title, price and image, and construction of the product
  dictionary.

* generate_post_from_urls: processes the first five URLs, collects the
  successful records in order, and renders one ranked Markdown section
  per record.

External effects are made explicit:
- the HTTP layer is a parameter (transport : Nat -> TransportResult)
  giving the outcome of the attempt with that index: failure stands for
  any requests.exceptions.RequestException (timeout, connection error,
  or the non-2xx status raised by raise_for_status), and success carries
  the page;
- a page is the observable result of parsing the body: the text (used by
  the marker check), together with the results of the three select_one
  probes. productTitle and priceOffscreen hold the stripped text of the
  element when it is present; landingImage is some a when the element
  exists with attribute dictionary entry a for src (a = none meaning the
  attribute is absent, in which case the subscript access raises KeyError);
- network requests and time.sleep calls are recorded as a trace of events;
- the Python return value is FetchResult: a record, the value None, or an
  uncaught exception escaping the function.
-/

/-- The product dictionary built at the end of a successful fetch
(keys title, price, url, image_url of the Python dict). -/
structure ProductRecord where
  title : String
  price : String
  url : String
  image_url : Option String
deriving Repr, DecidableEq

/-- Observable content of a successfully fetched page. -/
structure Page where
  text : String
  productTitle : Option String
  priceOffscreen : Option String
  landingImage : Option (Option String)
deriving Repr, DecidableEq

/-- Result of one HTTP attempt: failure is any RequestException raised by
requests.get or raise_for_status; success carries the parsed page. -/
inductive TransportResult where
  | failure
  | success (page : Page)
deriving Repr, DecidableEq

/-- Side effects of the fetch: an HTTP GET to a URL, or a time.sleep for a
number of seconds. -/
inductive Event where
  | request (url : String)
  | sleep (seconds : Nat)
deriving Repr, DecidableEq

/-- What get_product_details returns to its caller: the product dict, the
value None (all three failure kinds), or an uncaught exception (the
KeyError raised by the subscript access on the image element, which the
except clause for RequestException does not catch). -/
inductive FetchResult where
  | record (r : ProductRecord)
  | pyNone
  | keyError
deriving Repr, DecidableEq

/-- Character class [A-Z0-9] of the ASIN regex. -/
def isAsinChar (c : Char) : Bool :=
  (65 ≤ c.toNat && c.toNat ≤ 90) || (48 ≤ c.toNat && c.toNat ≤ 57)

/-- re.search for the pattern /dp/([A-Z0-9]{10}): scan left to right and
return the first capture group that matches. -/
def extractAsinList : List Char → Option (List Char)
  | [] => none
  | c :: rest =>
    match c, rest with
    | '/', 'd' :: 'p' :: '/' :: tail =>
      if (tail.take 10).length = 10 ∧ (tail.take 10).all isAsinChar then
        some (tail.take 10)
      else
        extractAsinList rest
    | _, _ => extractAsinList rest

/-- asin_match.group(1) of re.search applied to the URL string, or none
when the regex does not match. -/
def extractAsin (url : String) : Option String :=
  (extractAsinList url.data).map List.asString

/-- Line 18: the canonical URL built from the ASIN alone. -/
def normalized_url (asin : String) : String :=
  "https://www.amazon.co.jp/dp/" ++ asin

/-- Line 55: the affiliate URL built from the ASIN and the associate tag. -/
def affiliate_url (asin associate_tag : String) : String :=
  "https://www.amazon.co.jp/dp/" ++ asin ++ "/?tag=" ++ associate_tag

/-- needle matches at the start of the haystack. -/
def startsWithChars : List Char → List Char → Bool
  | [], _ => true
  | _ :: _, [] => false
  | n :: ns, h :: hs => n = h && startsWithChars ns hs

/-- needle occurs somewhere in the haystack (the Python in operator on
strings, as lists of characters). -/
def containsChars (needle : List Char) : List Char → Bool
  | [] => startsWithChars needle []
  | h :: t => startsWithChars needle (h :: t) || containsChars needle t

/-- Line 33: the test that the string Amazon CAPTCHA occurs in
response.text. -/
def captcha_detected (text : String) : Bool :=
  containsChars "Amazon CAPTCHA".data text.data

/-- Line 48: image_element[ \x27src\x27 ] if image_element else None. When the
element is present but the attribute is absent, the subscript access on
the BeautifulSoup tag raises KeyError, modelled as the error case. -/
def extract_image_url (page : Page) : Except Unit (Option String) :=
  match page.landingImage with
  | none => .ok none
  | some none => .error ()
  | some (some s) => .ok (some s)

/-- Lines 26 to 70: the body of the for-attempt-in-range(3) loop. The first
Nat is the current value of attempt, the second the number of loop
iterations still available (3 - attempt). Returns the Python result and
the trace of requests and sleeps, in order. -/
def fetchLoop (normUrl affUrl : String) (transport : Nat → TransportResult) :
    Nat → Nat → FetchResult × List Event
  | _, 0 => (.pyNone, [])
  | attempt, rem + 1 =>
    match transport attempt with
    | .failure =>
      ((fetchLoop normUrl affUrl transport (attempt + 1) rem).1,
       .request normUrl :: .sleep (2 * (attempt + 1)) ::
         (fetchLoop normUrl affUrl transport (attempt + 1) rem).2)
    | .success page =>
      if captcha_detected page.text then
        ((fetchLoop normUrl affUrl transport (attempt + 1) rem).1,
         .request normUrl :: .sleep (2 * (attempt + 1)) ::
           (fetchLoop normUrl affUrl transport (attempt + 1) rem).2)
      else
        match extract_image_url page with
        | .error _ => (.keyError, [.request normUrl])
        | .ok image_url =>
          match page.productTitle, page.priceOffscreen with
          | some t, some p =>
            if t = "" ∨ p = "" then
              (.pyNone, [.request normUrl])
            else
              (.record ⟨t, p, affUrl, image_url⟩, [.request normUrl])
          | _, _ => (.pyNone, [.request normUrl])

/-- get_product_details(url, associate_tag) with the HTTP layer passed in
as transport. Returns the Python result together with the trace of
network requests and sleeps it performs. -/
def get_product_details (url associate_tag : String)
    (transport : Nat → TransportResult) : FetchResult × List Event :=
  match extractAsin url with
  | none => (.pyNone, [])
  | some asin =>
    fetchLoop (normalized_url asin) (affiliate_url asin associate_tag)
      transport 0 3

/-- Python str() applied to an optional string: None renders as the four
letters None inside an f-string. -/
def pyStr : Option String → String
  | none => "None"
  | some s => s

/-- One rendered ranking block of the Markdown body (lines 123 to 132),
split into its heading, image reference, price line and link line. -/
structure PostSection where
  rank : Nat
  heading : String
  image_ref : String
  price_line : String
  link_line : String
deriving Repr, DecidableEq

/-- Lines 123 to 132: the f-string block for one product at a given rank. -/
def renderSection (rank : Nat) (p : ProductRecord) : PostSection :=
  { rank := rank
    heading := "## 第" ++ toString rank ++ "位：" ++ p.title
    image_ref := "![" ++ p.title ++ "](" ++ pyStr p.image_url ++ ")"
    price_line := "**価格:** " ++ p.price
    link_line := "[Amazonで詳しく見る](" ++ p.url ++ ")" }

/-- Lines 121 and 122: enumerate(products) with rank = i + 1, starting the
counter at the given rank. -/
def renderSectionsFrom (rank : Nat) : List ProductRecord → List PostSection
  | [] => []
  | p :: ps => renderSection rank p :: renderSectionsFrom (rank + 1) ps

/-- The ranked sections of the generated document, numbered from 1. -/
def renderSections (products : List ProductRecord) : List PostSection :=
  renderSectionsFrom 1 products

/-- Outcome of one generate_post_from_urls run on a given URL list: the
run crashes on an uncaught exception from get_product_details, aborts
with no document when no record was collected, or produces a document
with the collected records and their rendered sections. -/
inductive RunResult where
  | crashed
  | noProducts
  | doc (products : List ProductRecord) (sections : List PostSection)
deriving Repr, DecidableEq

/-- Lines 93 to 98: the collection loop. Appends the record when the call
returns one, skips the URL when it returns None, and propagates an
uncaught exception (no record list is produced). -/
def collectProducts (getDetails : String → FetchResult) :
    List String → Option (List ProductRecord)
  | [] => some []
  | u :: rest =>
    match getDetails u with
    | .keyError => none
    | .record r => (collectProducts getDetails rest).map (fun ps => r :: ps)
    | .pyNone => collectProducts getDetails rest

/-- The result get_product_details surfaces for one URL of the batch, with
the transport of that URL supplied by transportFor. -/
def detailsFor (associate_tag : String)
    (transportFor : String → Nat → TransportResult) (u : String) : FetchResult :=
  (get_product_details u associate_tag (transportFor u)).1

/-- generate_post_from_urls, lines 93 to 132, abstracted over its glue:
the URL list stands for the parsed, stripped, non-empty lines of
urls.txt, associate_tag for the environment variable (both checks happen
before this core), and front matter, date and file writing are outside
the model. Only the first five URLs are processed; an empty record list
aborts generation; otherwise the records are rendered in order. -/
def generate_post_from_urls (associate_tag : String) (urls : List String)
    (transportFor : String → Nat → TransportResult) : RunResult :=
  match collectProducts (detailsFor associate_tag transportFor) (urls.take 5) with
  | none => .crashed
  | some [] => .noProducts
  | some products => .doc products (renderSections products)

/-- The record a URL contributes to the batch, if any. -/
def recOf (g : String → FetchResult) (u : String) : Option ProductRecord :=
  match g u with
  | .record r => some r
  | _ => none

/-- Recognizes a sleep event in the trace. -/
def isSleep : Event → Bool
  | .sleep _ => true
  | .request _ => false

/-- Recognizes the successful result. -/
def isRecordRes : FetchResult → Bool
  | .record _ => true
  | _ => false

/-- Title or price cannot be extracted from the page: the element is
absent, or its stripped text is empty (both are falsy in the check
if not title or not price). -/
def missing_title_or_price (page : Page) : Prop :=
  page.productTitle = none ∨ page.productTitle = some "" ∨
  page.priceOffscreen = none ∨ page.priceOffscreen = some ""

instance (page : Page) : Decidable (missing_title_or_price page) := by
  unfold missing_title_or_price; infer_instance

example : extractAsin "/dp/B00EXAMPLE" = some "B00EXAMPLE" := by decide
example : extractAsin "https://www.amazon.co.jp/gp/x" = none := by decide
example : extractAsin "https://a/dp/B0C1D2E3F4?ref=sr_1" = some "B0C1D2E3F4" := by
  decide
example : captcha_detected "this is an Amazon CAPTCHA page" = true := by decide
example : captcha_detected "regular page" = false := by decide
example :
    (get_product_details "/dp/B00EXAMPLE" "tag" (fun _ => .failure)).2 =
      [.request (normalized_url "B00EXAMPLE"), .sleep 2,
       .request (normalized_url "B00EXAMPLE"), .sleep 4,
       .request (normalized_url "B00EXAMPLE"), .sleep 6] := by decide

/-- A well-formed product page used in concrete runs. -/
def goodPage : Page :=
  { text := "product page", productTitle := some "Widget",
    priceOffscreen := some "9.99", landingImage := some (some "img.jpg") }

/-- A bot-challenge page: the marker occurs in the text. -/
def captchaPage : Page :=
  { text := "Amazon CAPTCHA please verify", productTitle := none,
    priceOffscreen := none, landingImage := none }

/-- A page whose price anchor is absent. -/
def noPricePage : Page :=
  { text := "product page", productTitle := some "Widget",
    priceOffscreen := none, landingImage := some (some "img.jpg") }

/-- A page whose image anchor is absent. -/
def noImagePage : Page :=
  { text := "product page", productTitle := some "Widget",
    priceOffscreen := some "9.99", landingImage := none }

/-- A page whose image element is present but carries no src attribute. -/
def imageNoSrcPage : Page :=
  { text := "product page", productTitle := some "Widget",
    priceOffscreen := some "9.99", landingImage := some none }

/-- A page with no extractable price whose image element is present but
carries no src attribute. -/
def noPriceNoSrcPage : Page :=
  { text := "product page", productTitle := some "Widget",
    priceOffscreen := none, landingImage := some none }

/-- Any record the retry loop ever returns carries the affiliate URL it was
given and a non-empty title and price (the guard on line 51 rejects empty
and absent values before the record is built on line 58). -/
theorem fetchLoop_record_shape (normUrl affUrl : String)
    (transport : Nat → TransportResult) :
    ∀ rem attempt r,
      (fetchLoop normUrl affUrl transport attempt rem).1 = .record r →
      r.url = affUrl ∧ r.title ≠ "" ∧ r.price ≠ "" := by
  intro rem
  induction rem with
  | zero =>
    intro attempt r h
    simp [fetchLoop] at h
  | succ n ih =>
    intro attempt r h
    simp only [fetchLoop] at h
    cases htr : transport attempt with
    | failure =>
      rw [htr] at h
      exact ih (attempt + 1) r h
    | success page =>
      rw [htr] at h
      cases hc : captcha_detected page.text with
      | true =>
        simp only [hc, if_true] at h
        exact ih (attempt + 1) r h
      | false =>
        simp only [hc, Bool.false_eq_true, if_false] at h
        cases hext : extract_image_url page with
        | error e => simp [hext] at h
        | ok io =>
          rw [hext] at h
          cases ht : page.productTitle with
          | none => simp [ht] at h
          | some t =>
            cases hp : page.priceOffscreen with
            | none => simp [ht, hp] at h
            | some p =>
              simp only [ht, hp] at h
              by_cases hep : t = "" ∨ p = ""
              · simp [hep] at h
              · push_neg at hep
                simp only [if_neg (by tauto : ¬(t = "" ∨ p = ""))] at h
                simp at h
                subst h
                exact ⟨rfl, hep.1, hep.2⟩

/-- Every request the retry loop issues targets the canonical URL it was
given. -/
theorem fetchLoop_request_url (normUrl affUrl : String)
    (transport : Nat → TransportResult) :
    ∀ rem attempt s,
      Event.request s ∈ (fetchLoop normUrl affUrl transport attempt rem).2 →
      s = normUrl := by
  intro rem
  induction rem with
  | zero =>
    intro attempt s h
    simp [fetchLoop] at h
  | succ n ih =>
    intro attempt s h
    simp only [fetchLoop] at h
    cases htr : transport attempt with
    | failure =>
      rw [htr] at h
      simp only [List.mem_cons] at h
      rcases h with h | h | h
      · exact (Event.request.injEq .. ▸ h).symm ▸ rfl
      · exact absurd h (by simp)
      · exact ih (attempt + 1) s h
    | success page =>
      rw [htr] at h
      cases hc : captcha_detected page.text with
      | true =>
        simp only [hc, if_true, List.mem_cons] at h
        rcases h with h | h | h
        · exact (Event.request.injEq .. ▸ h).symm ▸ rfl
        · exact absurd h (by simp)
        · exact ih (attempt + 1) s h
      | false =>
        simp only [hc, Bool.false_eq_true, if_false] at h
        cases hext : extract_image_url page with
        | error e =>
          simp [hext] at h
          simp [h]
        | ok io =>
          rw [hext] at h
          cases ht : page.productTitle with
          | none => simp [ht] at h; simp [h]
          | some t =>
            cases hp : page.priceOffscreen with
            | none => simp [ht, hp] at h; simp [h]
            | some p =>
              simp only [ht, hp] at h
              by_cases hep : t = "" ∨ p = ""
              · simp [hep] at h; simp [h]
              · simp only [if_neg (by tauto : ¬(t = "" ∨ p = ""))] at h
                simp at h
                simp [h]

/-- C4: for every raw URL in which the ASIN regex finds no match, the fetch
returns the failure value (None) immediately with an empty effect trace:
in particular no network request and no delay is performed. -/
theorem C4_invalid_url (url associate_tag : String)
    (transport : Nat → TransportResult)
    (h : extractAsin url = none) :
    get_product_details url associate_tag transport = (.pyNone, []) := by
  simp [get_product_details, h]

/-- C4 witness: a URL without the /dp/ identifier segment is rejected with
no effects. -/
theorem C4_witness :
    get_product_details "https://www.amazon.co.jp/gp/bestsellers" "mytag"
      (fun _ => .success goodPage) = (.pyNone, []) :=
  C4_invalid_url "https://www.amazon.co.jp/gp/bestsellers" "mytag"
    (fun _ => .success goodPage) (by decide)

/-- C9: every ProductRecord the fetch ever returns has a non-empty title
and a non-empty price: a missing or empty title or price never yields a
partially populated record. -/
theorem C9_record_invariant (url associate_tag : String)
    (transport : Nat → TransportResult) (r : ProductRecord)
    (h : (get_product_details url associate_tag transport).1 = .record r) :
    r.title ≠ "" ∧ r.price ≠ "" := by
  unfold get_product_details at h
  cases ha : extractAsin url with
  | none => rw [ha] at h; simp at h
  | some asin =>
    rw [ha] at h
    exact (fetchLoop_record_shape _ _ transport 3 0 r h).2

/-- C9 witness: a concrete successful fetch, with the invariant read off
from the theorem. -/
theorem C9_witness :
    ("Widget" : String) ≠ "" ∧ ("9.99" : String) ≠ "" :=
  C9_record_invariant "/dp/B00EXAMPLE" "mytag" (fun _ => .success goodPage)
    ⟨"Widget", "9.99", affiliate_url "B00EXAMPLE" "mytag", some "img.jpg"⟩
    (by decide)

/-- C1 counterexample: with a transport that fails every attempt, the
effect trace of the fetch is request, sleep 2, request, sleep 4, request,
sleep 6: it contains three delays and ends with a delay executed after
the third and final failed attempt. Delays occurring only between
attempts would mean exactly two delays and a trace ending with a
request, so the claim that no delay follows the final failed attempt is
false: the except branch on line 67 sleeps unconditionally, even when
the loop is about to exhaust. -/
theorem C1_counterexample :
    (get_product_details "/dp/B00EXAMPLE" "mytag" (fun _ => .failure)).2 =
      [.request (normalized_url "B00EXAMPLE"), .sleep 2,
       .request (normalized_url "B00EXAMPLE"), .sleep 4,
       .request (normalized_url "B00EXAMPLE"), .sleep 6] ∧
    ((get_product_details "/dp/B00EXAMPLE" "mytag"
        (fun _ => .failure)).2.filter isSleep).length = 3 ∧
    (get_product_details "/dp/B00EXAMPLE" "mytag"
        (fun _ => .failure)).2.getLast? = some (.sleep 6) := by
  decide

/-- C1 amended: for every input whose transport fails on all attempts, the
fetch performs exactly 3 request attempts, waits with strictly
increasing delays of 2, 4 and 6 seconds after each failed attempt,
including one after the final failed attempt, and then returns the
transport-exhausted failure (surfaced as the value None). -/
theorem C1_amended (url associate_tag asin : String)
    (transport : Nat → TransportResult)
    (ha : extractAsin url = some asin)
    (hf : ∀ n, transport n = .failure) :
    get_product_details url associate_tag transport =
      (.pyNone,
       [.request (normalized_url asin), .sleep 2,
        .request (normalized_url asin), .sleep 4,
        .request (normalized_url asin), .sleep 6]) := by
  simp [get_product_details, ha, fetchLoop, hf 0, hf 1, hf 2]

/-- C1 witness: the amended statement at a concrete URL and an
always-failing transport. -/
theorem C1_witness :
    get_product_details "/dp/B00EXAMPLE" "mytag" (fun _ => .failure) =
      (.pyNone,
       [.request (normalized_url "B00EXAMPLE"), .sleep 2,
        .request (normalized_url "B00EXAMPLE"), .sleep 4,
        .request (normalized_url "B00EXAMPLE"), .sleep 6]) :=
  C1_amended "/dp/B00EXAMPLE" "mytag" "B00EXAMPLE" (fun _ => .failure)
    (by decide) (fun _ => rfl)

/-- C2: two raw URLs from which the regex extracts the same identifier
produce identical fetch behaviour (same result and same effect trace,
for any transport); every request targets the canonical URL built from
the identifier alone; and any returned record carries the affiliate URL
built from the identifier and the associate tag alone. -/
theorem C2_canonicalization (u1 u2 associate_tag asin : String)
    (transport : Nat → TransportResult)
    (h1 : extractAsin u1 = some asin) (h2 : extractAsin u2 = some asin) :
    get_product_details u1 associate_tag transport =
      get_product_details u2 associate_tag transport ∧
    (∀ s, Event.request s ∈ (get_product_details u1 associate_tag transport).2 →
      s = normalized_url asin) ∧
    (∀ r, (get_product_details u1 associate_tag transport).1 = .record r →
      r.url = affiliate_url asin associate_tag) := by
  refine ⟨?_, ?_, ?_⟩
  · simp [get_product_details, h1, h2]
  · intro s hs
    unfold get_product_details at hs
    rw [h1] at hs
    exact fetchLoop_request_url _ _ transport 3 0 s hs
  · intro r hr
    unfold get_product_details at hr
    rw [h1] at hr
    exact (fetchLoop_record_shape _ _ transport 3 0 r hr).1

/-- C2 witness: two URLs with query and path noise around the same
identifier behave identically. -/
theorem C2_witness :
    get_product_details "/dp/B0C1D2E3F4?ref=sr_1_2" "mytag" (fun _ => .failure) =
      get_product_details "https://www.amazon.co.jp/item/dp/B0C1D2E3F4/x" "mytag"
        (fun _ => .failure) :=
  (C2_canonicalization "/dp/B0C1D2E3F4?ref=sr_1_2"
    "https://www.amazon.co.jp/item/dp/B0C1D2E3F4/x" "mytag" "B0C1D2E3F4"
    (fun _ => .failure) (by decide) (by decide)).1

/-- C3: the claim that extraction never raises is wrong on the code. When
the image element is present but carries no src attribute, the subscript
access image_element on line 48 raises KeyError, which the except clause
for RequestException does not catch, so the exception escapes
get_product_details instead of being represented as a missing value.
This theorem evaluates the code at that failing input. -/
theorem C3_extraction_raises :
    (get_product_details "/dp/B00EXAMPLE" "mytag"
        (fun _ => .success imageNoSrcPage)).1 = .keyError := by
  decide

/-- C5: with the bot-challenge marker present on attempts 1 and 2 and a
normal extractable page on attempt 3, the fetch returns the record built
from the content of attempt 3, and the trace shows exactly 2 retry
delays (2 and 4 seconds) with three requests: each challenge consumed an
attempt. -/
theorem C5_captcha_retry (url associate_tag asin : String)
    (transport : Nat → TransportResult) (pg1 pg2 pg3 : Page)
    (t p : String) (img : Option String)
    (ha : extractAsin url = some asin)
    (h0 : transport 0 = .success pg1) (hc1 : captcha_detected pg1.text = true)
    (h1 : transport 1 = .success pg2) (hc2 : captcha_detected pg2.text = true)
    (h2 : transport 2 = .success pg3) (hc3 : captcha_detected pg3.text = false)
    (hi : extract_image_url pg3 = .ok img)
    (ht : pg3.productTitle = some t) (hp : pg3.priceOffscreen = some p)
    (hne : ¬ (t = "" ∨ p = "")) :
    get_product_details url associate_tag transport =
      (.record ⟨t, p, affiliate_url asin associate_tag, img⟩,
       [.request (normalized_url asin), .sleep 2,
        .request (normalized_url asin), .sleep 4,
        .request (normalized_url asin)]) := by
  simp [get_product_details, ha, fetchLoop, h0, h1, h2, hc1, hc2, hc3,
        hi, ht, hp, hne]

/-- The transport used by the C5 witness: challenge pages on the first two
attempts, a valid page afterwards. -/
def c5transport : Nat → TransportResult :=
  fun n => if n < 2 then .success captchaPage else .success goodPage

/-- C5 witness: the statement at a concrete URL and the two-challenges
transport. -/
theorem C5_witness :
    get_product_details "/dp/B00EXAMPLE" "mytag" c5transport =
      (.record ⟨"Widget", "9.99", affiliate_url "B00EXAMPLE" "mytag",
        some "img.jpg"⟩,
       [.request (normalized_url "B00EXAMPLE"), .sleep 2,
        .request (normalized_url "B00EXAMPLE"), .sleep 4,
        .request (normalized_url "B00EXAMPLE")]) :=
  C5_captcha_retry "/dp/B00EXAMPLE" "mytag" "B00EXAMPLE" c5transport
    captchaPage captchaPage goodPage "Widget" "9.99" (some "img.jpg")
    (by decide) (by decide) (by decide) (by decide) (by decide) (by decide)
    (by decide) rfl (by decide) (by decide) (by decide)

/-- C6 counterexample: the original claim quantifies over every normal
page from which title or price cannot be extracted, but on such a page
whose image element is present without a src attribute the subscript
access on line 48 raises KeyError before the title-or-price guard on
line 51 runs, so the fetch raises instead of returning the failure value
after one attempt. -/
theorem C6_counterexample :
    (get_product_details "/dp/B00EXAMPLE" "mytag"
        (fun _ => .success noPriceNoSrcPage)).1 = .keyError ∧
    get_product_details "/dp/B00EXAMPLE" "mytag"
        (fun _ => .success noPriceNoSrcPage) ≠
      (.pyNone, [.request (normalized_url "B00EXAMPLE")]) := by
  decide

/-- C6 amended: a first response that is a normal page (no transport
failure, no challenge marker) from which title or price cannot be
extracted, and on which the image access does not raise (image element
absent, or present with a src attribute), makes the fetch return the
failure value after exactly one attempt: the trace is a single request,
with no retry and no delay. Without the no-raise proviso the fetch can
instead raise an uncaught KeyError. -/
theorem C6_incomplete_extraction (url associate_tag asin : String)
    (transport : Nat → TransportResult) (page : Page) (io : Option String)
    (ha : extractAsin url = some asin)
    (h0 : transport 0 = .success page)
    (hc : captcha_detected page.text = false)
    (hi : extract_image_url page = .ok io)
    (hm : missing_title_or_price page) :
    get_product_details url associate_tag transport =
      (.pyNone, [.request (normalized_url asin)]) := by
  unfold get_product_details
  rw [ha]
  cases htA : page.productTitle with
  | none =>
    cases hpA : page.priceOffscreen with
    | none => simp [fetchLoop, h0, hc, hi, htA, hpA]
    | some p => simp [fetchLoop, h0, hc, hi, htA, hpA]
  | some t =>
    cases hpA : page.priceOffscreen with
    | none => simp [fetchLoop, h0, hc, hi, htA, hpA]
    | some p =>
      have hep : t = "" ∨ p = "" := by
        rcases hm with hm | hm | hm | hm <;> simp_all
      rcases hep with rfl | rfl <;> simp [fetchLoop, h0, hc, hi, htA, hpA]

/-- C6 witness: a page with a title and an image but no price anchor fails
after a single request. -/
theorem C6_witness :
    get_product_details "/dp/B00EXAMPLE" "mytag"
        (fun _ => .success noPricePage) =
      (.pyNone, [.request (normalized_url "B00EXAMPLE")]) :=
  C6_incomplete_extraction "/dp/B00EXAMPLE" "mytag" "B00EXAMPLE"
    (fun _ => .success noPricePage) noPricePage (some "img.jpg")
    (by decide) (by decide) (by decide) rfl (by decide)

/-- C7 counterexample: three inputs failing for the three different
reasons (no identifier in the URL; transport failing all attempts; a
fetched page with no extractable price) all surface the very same value
None, so the result the caller receives does not distinguish the three
failure kinds. The taxonomy exists only in printed warnings. -/
theorem C7_counterexample :
    (get_product_details "https://www.amazon.co.jp/gp/bestsellers" "mytag"
        (fun _ => .failure)).1 = .pyNone ∧
    (get_product_details "/dp/B00EXAMPLE" "mytag" (fun _ => .failure)).1 =
      .pyNone ∧
    (get_product_details "/dp/B00EXAMPLE" "mytag"
        (fun _ => .success noPricePage)).1 = .pyNone := by
  decide

/-- C7 amended: the fetch surfaces every failure as the single value None:
any two invocations that neither return a record nor raise produce equal
results, so the caller cannot tell from the returned value which of the
three failure kinds occurred. -/
theorem C7_amended (u1 g1 u2 g2 : String)
    (t1 t2 : Nat → TransportResult)
    (h1r : isRecordRes (get_product_details u1 g1 t1).1 = false)
    (h1k : (get_product_details u1 g1 t1).1 ≠ .keyError)
    (h2r : isRecordRes (get_product_details u2 g2 t2).1 = false)
    (h2k : (get_product_details u2 g2 t2).1 ≠ .keyError) :
    (get_product_details u1 g1 t1).1 = (get_product_details u2 g2 t2).1 := by
  cases hA : (get_product_details u1 g1 t1).1 <;>
    cases hB : (get_product_details u2 g2 t2).1 <;>
      simp_all [isRecordRes]

/-- C7 witness: an invalid-URL failure and a transport-exhausted failure
return equal values. -/
theorem C7_witness :
    (get_product_details "https://www.amazon.co.jp/gp/bestsellers" "mytag"
        (fun _ => .failure)).1 =
      (get_product_details "/dp/B00EXAMPLE" "mytag" (fun _ => .failure)).1 :=
  C7_amended "https://www.amazon.co.jp/gp/bestsellers" "mytag"
    "/dp/B00EXAMPLE" "mytag" (fun _ => .failure) (fun _ => .failure)
    (by decide) (by decide) (by decide) (by decide)

/-- When no URL of the batch makes get_product_details raise, the
collection loop returns exactly the records of the successful URLs, in
input order. -/
theorem collectProducts_eq (g : String → FetchResult) :
    ∀ us : List String, (∀ u ∈ us, g u ≠ .keyError) →
      collectProducts g us = some (us.filterMap (recOf g)) := by
  intro us
  induction us with
  | nil => intro _; rfl
  | cons u rest ih =>
    intro h
    have hu : g u ≠ .keyError := h u (List.mem_cons_self u rest)
    have hrest : ∀ v ∈ rest, g v ≠ .keyError :=
      fun v hv => h v (List.mem_cons_of_mem u hv)
    cases hg : g u with
    | keyError => exact absurd hg hu
    | record r => simp [collectProducts, hg, recOf, ih hrest]
    | pyNone => simp [collectProducts, hg, recOf, ih hrest]

/-- The URL batch of the C8 counterexample: five URLs, of which the
first, third and fifth yield records, the second hits the KeyError page
and the fourth carries no identifier. -/
def cUrls : List String :=
  ["/dp/B000000001", "/dp/B000000004", "/dp/B000000002", "nourl2",
   "/dp/B000000003"]

/-- The transport of the C8 counterexample: the second URL serves a page
with no price and a srcless image element; every other request succeeds
with a valid product page. -/
def cTransport : String → Nat → TransportResult :=
  fun u _ =>
    if u = "/dp/B000000004" then .success noPriceNoSrcPage
    else .success goodPage

/-- C8 counterexample: the original claim quantifies over every run with
5 URLs of which exactly 3 yield valid pages and asserts that such a
partial success still produces a document. In this run exactly 3 of the
5 URLs yield records, but one failing URL serves a page whose image
element lacks its src attribute: the KeyError escapes
get_product_details, the collection loop dies with it, and the run
produces no document at all. -/
theorem C8_counterexample :
    cUrls.length = 5 ∧
    (cUrls.filterMap (recOf (detailsFor "mytag" cTransport))).length = 3 ∧
    generate_post_from_urls "mytag" cUrls cTransport = .crashed := by
  decide

/-- C8 amended: a run on 5 URLs of which exactly 3 yield records, in
which no fetch raises the uncaught KeyError, produces a document whose
product list is exactly the 3 records of the successful URLs in their
input order and whose rendered sections are numbered 1, 2, 3. Such a
partial success still produces a document; but a run in which some fetch
raises crashes and produces none. -/
theorem C8_partial_batch (associate_tag : String) (urls : List String)
    (transportFor : String → Nat → TransportResult)
    (h5 : urls.length = 5)
    (hnc : ∀ u ∈ urls, detailsFor associate_tag transportFor u ≠ .keyError)
    (h3 : (urls.filterMap
      (recOf (detailsFor associate_tag transportFor))).length = 3) :
    generate_post_from_urls associate_tag urls transportFor =
      .doc (urls.filterMap (recOf (detailsFor associate_tag transportFor)))
        (renderSections
          (urls.filterMap (recOf (detailsFor associate_tag transportFor)))) ∧
    (renderSections
        (urls.filterMap (recOf (detailsFor associate_tag transportFor)))).map
      PostSection.rank = [1, 2, 3] := by
  have htake : urls.take 5 = urls := by
    rw [← h5]
    exact List.take_length urls
  have hcol := collectProducts_eq (detailsFor associate_tag transportFor) urls hnc
  obtain ⟨a, b, c, habc⟩ := List.length_eq_three.mp h3
  constructor
  · unfold generate_post_from_urls
    rw [htake, hcol, habc]
  · rw [habc]
    simp [renderSections, renderSectionsFrom, renderSection]

/-- The URL batch of the C8 witness: five URLs, of which the first, third
and fifth carry an identifier. -/
def wUrls : List String :=
  ["/dp/B000000001", "nourl1", "/dp/B000000002", "nourl2", "/dp/B000000003"]

/-- The transport of the C8 witness: every request succeeds with a valid
product page, so exactly the three well-formed URLs yield records. -/
def wTransport : String → Nat → TransportResult :=
  fun _ _ => .success goodPage

/-- C8 witness: the batch statement at the concrete five-URL run. -/
theorem C8_witness :
    generate_post_from_urls "mytag" wUrls wTransport =
      .doc (wUrls.filterMap (recOf (detailsFor "mytag" wTransport)))
        (renderSections (wUrls.filterMap (recOf (detailsFor "mytag" wTransport)))) ∧
    (renderSections (wUrls.filterMap (recOf (detailsFor "mytag" wTransport)))).map
      PostSection.rank = [1, 2, 3] :=
  C8_partial_batch "mytag" wUrls wTransport (by decide) (by decide) (by decide)

/-- C10: a page whose title and price extract but whose image anchor is
absent still yields a record, with the missing value as its image field,
and the rendered section for that record splices the literal text None
into the URL slot of the image reference. -/
theorem C10_missing_image (url associate_tag asin : String)
    (transport : Nat → TransportResult) (page : Page) (t p : String)
    (rank : Nat)
    (ha : extractAsin url = some asin)
    (h0 : transport 0 = .success page)
    (hc : captcha_detected page.text = false)
    (ht : page.productTitle = some t) (hp : page.priceOffscreen = some p)
    (hne : ¬ (t = "" ∨ p = ""))
    (hi : page.landingImage = none) :
    (get_product_details url associate_tag transport).1 =
      .record ⟨t, p, affiliate_url asin associate_tag, none⟩ ∧
    (renderSection rank
        ⟨t, p, affiliate_url asin associate_tag, none⟩).image_ref =
      "![" ++ t ++ "](" ++ "None" ++ ")" := by
  constructor
  · simp [get_product_details, ha, fetchLoop, h0, hc, ht, hp, hne,
          extract_image_url, hi]
  · simp [renderSection, pyStr]

/-- C10 witness: the missing-image run at a concrete page, record and
section. -/
theorem C10_witness :
    (get_product_details "/dp/B00EXAMPLE" "mytag"
        (fun _ => .success noImagePage)).1 =
      .record ⟨"Widget", "9.99", affiliate_url "B00EXAMPLE" "mytag", none⟩ ∧
    (renderSection 1
        ⟨"Widget", "9.99", affiliate_url "B00EXAMPLE" "mytag", none⟩).image_ref =
      "![" ++ "Widget" ++ "](" ++ "None" ++ ")" :=
  C10_missing_image "/dp/B00EXAMPLE" "mytag" "B00EXAMPLE"
    (fun _ => .success noImagePage) noImagePage "Widget" "9.99" 1
    (by decide) (by decide) (by decide) (by decide) (by decide) (by decide)
    (by decide)
